import Mathlib

/-!
Shallow embedding of the statistics-aggregation and status-resolution layer
of the BTCPredictorInterface dashboard:
* `src/app/api/predictions/route.ts` (status resolver `getSystemStatus`,
  aggregator `calculateCategoryStats`, the `GET` pipeline's `overallStats`,
  `timeframeStats` and `pendingPredictions` computations),
* the type/table module (`TIMEFRAME_CATEGORIES`, `getTimeframeCategory`),
* `src/app/page.tsx` (`SystemStatusCard` client-side status re-derivation).

Modelling conventions:
* A JavaScript `Date.getTime()` reading (epoch milliseconds) is an `Int`.
  `new Date(s)` on an unparseable string does NOT throw in JavaScript: it
  yields an Invalid Date whose time value is NaN, and every `<` / `<=`
  comparison involving NaN is false.  We model such a reading as
  `none : Option Int` and comparisons against it via `jsLtQ` / `jsLtI` /
  `jsLeI`, which return `false` on `none`.  Consequently the `try/catch`
  blocks wrapped around `new Date(...)` in the source are dead code for
  string inputs and do not appear in the embedding.
* Fractional arithmetic (elapsed minutes, win rates, averages) is over `ℚ`;
  the source only adds, divides, multiplies and compares, so `ℚ` is exact.
* Optional record fields are `Option`; the JavaScript default `x || 0` is
  `Option.getD 0` (both send an absent value, and the value `0`, to `0`).
* Fields of the source records that the aggregation layer never reads
  (prices, trend, confidence, per-model outputs) are omitted from the
  record structures.
-/

namespace BTCPredictor

/-- JavaScript comparison `x < c` on rationals where `x` may be NaN
(modelled as `none`): any comparison with NaN is false. -/
def jsLtQ (x : Option ℚ) (c : ℚ) : Bool :=
  match x with
  | none => false
  | some v => decide (v < c)

/-- JavaScript comparison `x < c` on integers where `x` may be NaN. -/
def jsLtI (x : Option Int) (c : Int) : Bool :=
  match x with
  | none => false
  | some v => decide (v < c)

/-- JavaScript comparison `x <= c` on integers where `x` may be NaN. -/
def jsLeI (x : Option Int) (c : Int) : Bool :=
  match x with
  | none => false
  | some v => decide (v ≤ c)

/-- The `validation_result` enum of a validated prediction record. -/
inductive ValidationResult where
  | WIN
  | LOSE
deriving DecidableEq

/-- A prediction record (interface `Prediction`), restricted to the fields
the aggregation layer reads.  `prediction_time_parsed` and
`target_time_parsed` are the `getTime()` values of `new Date(...)` applied
to the corresponding ISO-string fields (`none` = unparseable string /
Invalid Date / NaN). -/
structure Prediction where
  id : String
  timeframe_minutes : Int
  validated : Bool
  validation_result : Option ValidationResult
  price_error : Option ℚ
  price_error_pct : Option ℚ
  prediction_time_parsed : Option Int
  target_time_parsed : Option Int
deriving DecidableEq

/-- The four timeframe categories (type `TimeframeCategory`). -/
inductive TimeframeCategory where
  | ultra_short
  | short
  | medium
  | long
deriving DecidableEq

/-- The fixed category → timeframe-minutes membership table
(constant `TIMEFRAME_CATEGORIES` of the types module). -/
def TIMEFRAME_CATEGORIES : TimeframeCategory → List Int
  | .ultra_short => [1, 2, 3, 5]
  | .short => [10, 15, 20, 30, 45, 60]
  | .medium => [120, 180, 240, 360, 480, 720]
  | .long => [1440, 2880, 4320, 5760, 7200, 10080]

/-- The threshold-based classifier `getTimeframeCategory` of the types
module: every minutes value is assigned to a category by thresholds. -/
def getTimeframeCategory (minutes : Int) : TimeframeCategory :=
  if minutes ≤ 5 then .ultra_short
  else if minutes ≤ 60 then .short
  else if minutes ≤ 720 then .medium
  else .long

/-- A statistics aggregate (interface `Statistics`).
`timeframe_minutes` is `none` for the overall aggregate. -/
structure Statistics where
  timeframe_minutes : Option Int
  period_days : Nat
  total_predictions : Nat
  wins : Nat
  losses : Nat
  win_rate : ℚ
  avg_error : ℚ
  avg_error_pct : ℚ
  last_updated : String
deriving DecidableEq

/-- A per-category aggregate (interface `TimeframeCategoryStats`).
Note: unlike `Statistics`, it carries no `last_updated` timestamp. -/
structure TimeframeCategoryStats where
  category : TimeframeCategory
  timeframes : List Int
  total_predictions : Nat
  wins : Nat
  losses : Nat
  win_rate : ℚ
  avg_error : ℚ
  avg_error_pct : ℚ
deriving DecidableEq

/-- Body of the `categories.map` closure in `calculateCategoryStats`
(route.ts lines 107-130): the aggregate of one category. -/
def categoryStatsFor (predictions : List Prediction) (category : TimeframeCategory) :
    TimeframeCategoryStats :=
  let timeframes := TIMEFRAME_CATEGORIES category
  let categoryPredictions :=
    predictions.filter fun p => decide (p.timeframe_minutes ∈ timeframes)
  let total := categoryPredictions.length
  let wins :=
    (categoryPredictions.filter fun p => decide (p.validation_result = some .WIN)).length
  let losses :=
    (categoryPredictions.filter fun p => decide (p.validation_result = some .LOSE)).length
  let totalError := categoryPredictions.foldl (fun sum p => sum + p.price_error.getD 0) 0
  let totalErrorPct :=
    categoryPredictions.foldl (fun sum p => sum + p.price_error_pct.getD 0) 0
  { category := category
    timeframes := timeframes
    total_predictions := total
    wins := wins
    losses := losses
    win_rate := if total > 0 then ((wins : ℚ) / (total : ℚ)) * 100 else 0
    avg_error := if total > 0 then totalError / (total : ℚ) else 0
    avg_error_pct := if total > 0 then totalErrorPct / (total : ℚ) else 0 }

/-- `calculateCategoryStats` (route.ts lines 104-131). -/
def calculateCategoryStats (predictions : List Prediction) :
    List TimeframeCategoryStats :=
  [TimeframeCategory.ultra_short, .short, .medium, .long].map
    (categoryStatsFor predictions)

/-- The overall 7-day aggregate computed inline in `GET`
(route.ts lines 213-229).  `nowISO` is the `new Date().toISOString()`
reading stored in `last_updated`. -/
def overallStats (validatedPredictions : List Prediction) (nowISO : String) :
    Statistics :=
  let totalPredictions := validatedPredictions.length
  let wins :=
    (validatedPredictions.filter fun p => decide (p.validation_result = some .WIN)).length
  let losses :=
    (validatedPredictions.filter fun p => decide (p.validation_result = some .LOSE)).length
  let totalError :=
    validatedPredictions.foldl (fun sum p => sum + p.price_error.getD 0) 0
  let totalErrorPct :=
    validatedPredictions.foldl (fun sum p => sum + p.price_error_pct.getD 0) 0
  { timeframe_minutes := none
    period_days := 7
    total_predictions := totalPredictions
    wins := wins
    losses := losses
    win_rate := if totalPredictions > 0 then ((wins : ℚ) / (totalPredictions : ℚ)) * 100 else 0
    avg_error := if totalPredictions > 0 then totalError / (totalPredictions : ℚ) else 0
    avg_error_pct :=
      if totalPredictions > 0 then totalErrorPct / (totalPredictions : ℚ) else 0
    last_updated := nowISO }

/-- The active timeframe set of the `GET` pipeline (route.ts line 240). -/
def activeTimeframes : List Int := [5, 10, 15, 30, 60, 120, 240, 480, 720, 1440]

/-- Body of the `activeTimeframes.map` closure in `GET`
(route.ts lines 241-261): the aggregate of one timeframe. -/
def timeframeStatsFor (validatedPredictions : List Prediction) (nowISO : String)
    (tf : Int) : Statistics :=
  let tfPredictions :=
    validatedPredictions.filter fun p => decide (p.timeframe_minutes = tf)
  let tfTotal := tfPredictions.length
  let tfWins :=
    (tfPredictions.filter fun p => decide (p.validation_result = some .WIN)).length
  let tfLosses :=
    (tfPredictions.filter fun p => decide (p.validation_result = some .LOSE)).length
  let tfTotalError := tfPredictions.foldl (fun sum p => sum + p.price_error.getD 0) 0
  let tfTotalErrorPct :=
    tfPredictions.foldl (fun sum p => sum + p.price_error_pct.getD 0) 0
  { timeframe_minutes := some tf
    period_days := 7
    total_predictions := tfTotal
    wins := tfWins
    losses := tfLosses
    win_rate := if tfTotal > 0 then ((tfWins : ℚ) / (tfTotal : ℚ)) * 100 else 0
    avg_error := if tfTotal > 0 then tfTotalError / (tfTotal : ℚ) else 0
    avg_error_pct := if tfTotal > 0 then tfTotalErrorPct / (tfTotal : ℚ) else 0
    last_updated := nowISO }

/-- The per-timeframe aggregates of the `GET` pipeline
(route.ts lines 240-261). -/
def timeframeStats (validatedPredictions : List Prediction) (nowISO : String) :
    List Statistics :=
  activeTimeframes.map (timeframeStatsFor validatedPredictions nowISO)

/-- The validated + 7-day-window filter feeding the aggregates
(route.ts lines 197-211).  The Firestore query keeps `validated == true`;
the subsequent filter keeps records whose parsed `prediction_time` is at
least `sevenDaysAgoMs`.  An unparseable `prediction_time` gives NaN, and
`NaN >= cutoff` is false, so the record is excluded (the `catch` branch is
unreachable). -/
def filterValidatedWindow (docs : List Prediction) (sevenDaysAgoMs : Int) :
    List Prediction :=
  (docs.filter fun p => p.validated).filter fun p =>
    match p.prediction_time_parsed with
    | some t => decide (sevenDaysAgoMs ≤ t)
    | none => false

/-- The pending-validation filter of the `GET` pipeline
(route.ts lines 176-188): keep records whose parsed `target_time` is at
most `nowMs`.  An unparseable `target_time` gives an Invalid Date and
`NaN <= now` is false, so the record is excluded (the `catch` branch is
unreachable). -/
def pendingFilter (preds : List Prediction) (nowMs : Int) : List Prediction :=
  preds.filter fun pred =>
    match pred.target_time_parsed with
    | some t => decide (t ≤ nowMs)
    | none => false

/-- The discrete status values of interface `SystemStatus`. -/
inductive StatusVal where
  | online
  | offline
  | starting
  | running
  | stopping
  | error
deriving DecidableEq

/-- The heartbeat document read by `getSystemStatus`, restricted to the
fields the resolver branches on.  `timestampParsed` is the `getTime()`
value of `new Date(timestamp)` (`none` = unparseable / Invalid Date). -/
structure HeartbeatData where
  status : String
  timestamp : String
  timestampParsed : Option Int
  message : Option String
deriving DecidableEq

/-- The resolver output, restricted to the fields the claims concern. -/
structure SystemStatusOut where
  status : StatusVal
  timestamp : String
  message : Option String
deriving DecidableEq

/-- `getSystemStatus` (route.ts lines 31-102), on the success path (the
outer `catch` for store failures is outside this model).  `doc` is the
heartbeat document or `none` when `statusDoc.exists` is false.  Note the
inner `try { lastTimestamp = new Date(data.timestamp) } catch { ... }`
never takes its `catch` branch: `new Date` on an unparseable string
returns an Invalid Date (time value NaN) instead of throwing, so
`minutesSinceLastHeartbeat` is NaN (`none` here) and both
`minutesSinceLastHeartbeat < 2` and `< 10` are false. -/
def getSystemStatus (doc : Option HeartbeatData) (nowMs : Int) (nowISO : String) :
    SystemStatusOut :=
  match doc with
  | some data =>
    let minutesSinceLastHeartbeat : Option ℚ :=
      data.timestampParsed.map fun t => ((nowMs - t : Int) : ℚ) / 1000 / 60
    let status : StatusVal :=
      if data.status = "offline" then .offline
      else if data.status = "error" then .error
      else if data.status = "starting" then .starting
      else if data.status = "running" then .running
      else if jsLtQ minutesSinceLastHeartbeat 2 then .online
      else if jsLtQ minutesSinceLastHeartbeat 10 then .online
      else .offline
    { status := status, timestamp := data.timestamp, message := data.message }
  | none =>
    { status := .offline
      timestamp := nowISO
      message := some "No heartbeat data found" }

/-- The discrete states of the client-side `SystemStatusCard`. -/
inductive ClientStatus where
  | online
  | warning
  | offline
  | unknown
deriving DecidableEq

/-- The client-side status re-derivation in `SystemStatusCard`
(page.tsx `updateStatus`, lines 294-312).  `serverStatus` is the status
field of the `SystemStatus` object the card receives; `timestampRaw` /
`timestampParsed` are its timestamp string and the `getTime()` value of
`new Date` on it.  `Math.floor((now - lastTime) / 60000)` is the floor of
the exact rational; on an Invalid Date it is NaN (`none`), and both NaN
comparisons below are false. -/
def clientDeriveStatus (serverStatus : StatusVal) (timestampRaw : String)
    (timestampParsed : Option Int) (nowMs : Int) : ClientStatus :=
  if timestampRaw = "" then .unknown
  else
    let diffMinutes : Option Int :=
      timestampParsed.map fun t => ⌊((nowMs - t : Int) : ℚ) / 60000⌋
    if serverStatus = .offline ∨ serverStatus = .error then .offline
    else if jsLtI diffMinutes 2 then .online
    else if jsLtI diffMinutes 10 then .warning
    else .offline

/-- The clock-independent fields of a `Statistics` value: everything
except `last_updated`. -/
def statsCore (s : Statistics) :
    Option Int × Nat × Nat × Nat × Nat × ℚ × ℚ × ℚ :=
  (s.timeframe_minutes, s.period_days, s.total_predictions, s.wins, s.losses,
    s.win_rate, s.avg_error, s.avg_error_pct)

/-- A validated record with the given timeframe and validation result,
used as concrete input in witnesses. -/
def mkValidated (tfm : Int) (res : Option ValidationResult) : Prediction :=
  { id := "r"
    timeframe_minutes := tfm
    validated := true
    validation_result := res
    price_error := some 5
    price_error_pct := some 1
    prediction_time_parsed := some 0
    target_time_parsed := some 0 }

/-- A heartbeat document with the given explicit status field and a
last-seen reading of epoch 0, used as concrete input in witnesses. -/
def mkHeartbeat (s : String) : HeartbeatData :=
  { status := s
    timestamp := "2024-01-01T00:00:00"
    timestampParsed := some 0
    message := none }

/-- Bridge between the source's `filter(...).length` counting idiom and
`countP`, used by the counting lemmas below. -/
lemma length_filter_as_countP {α : Type} (p : α → Bool) (l : List α) :
    (l.filter p).length = l.countP p := by
  induction l with
  | nil => rfl
  | cons a l ih =>
    by_cases h : p a <;>
      simp [List.filter_cons, List.countP_cons, h, ih]

/-- Two pointwise-exclusive counts together never exceed the length. -/
lemma countP_disjoint_le_length {α : Type} (p q : α → Bool)
    (h : ∀ a, p a = true → q a = false) (l : List α) :
    l.countP p + l.countP q ≤ l.length := by
  induction l with
  | nil => simp
  | cons a l ih =>
    rw [List.countP_cons, List.countP_cons, List.length_cons]
    cases hpa : p a with
    | false =>
      cases hqa : q a <;> simp [hqa] <;> omega
    | true =>
      have hqa := h a hpa
      simp [hqa]
      omega

/-- In any group, the WIN count plus the LOSE count is at most the group
size (each record carries at most one of the two results). -/
lemma wins_add_losses_le (l : List Prediction) :
    (l.filter fun p => decide (p.validation_result = some ValidationResult.WIN)).length +
      (l.filter fun p => decide (p.validation_result = some ValidationResult.LOSE)).length ≤
      l.length := by
  rw [length_filter_as_countP, length_filter_as_countP]
  apply countP_disjoint_le_length
  intro a ha
  simp only [decide_eq_true_eq] at ha
  simp [ha]

/-- Arithmetic facts about the `wins/total*100` rate of a non-empty group. -/
lemma winRate_bounds (w t : Nat) (hw : w ≤ t) (ht : 0 < t) :
    0 ≤ ((w : ℚ) / (t : ℚ)) * 100 ∧ ((w : ℚ) / (t : ℚ)) * 100 ≤ 100 ∧
      (((w : ℚ) / (t : ℚ)) * 100 = 0 ↔ w = 0) := by
  have htQ : (0 : ℚ) < (t : ℚ) := by exact_mod_cast ht
  refine ⟨by positivity, ?_, ?_⟩
  · have h1 : (w : ℚ) / (t : ℚ) ≤ 1 := by
      rw [div_le_one htQ]
      exact_mod_cast hw
    linarith
  · constructor
    · intro h
      rcases mul_eq_zero.mp h with h0 | h0
      · rcases div_eq_zero_iff.mp h0 with h0 | h0
        · exact_mod_cast h0
        · exact absurd h0 (ne_of_gt htQ)
      · norm_num at h0
    · intro h
      rw [h]
      norm_num

/-- The `wins + losses ≤ total` and win-rate facts, stated on the raw
numbers an aggregate is built from. -/
lemma rate_invariant_raw (w lo tot : Nat) (wr : ℚ)
    (hle : w + lo ≤ tot)
    (hwr : wr = if tot > 0 then ((w : ℚ) / (tot : ℚ)) * 100 else 0) :
    w + lo ≤ tot ∧ (0 < tot → 0 ≤ wr ∧ wr ≤ 100 ∧ (wr = 0 ↔ w = 0)) := by
  refine ⟨hle, fun hpos => ?_⟩
  rw [hwr, if_pos hpos]
  exact winRate_bounds w tot (le_trans (Nat.le_add_right w lo) hle) hpos

/-- The invariant of claim C9 for a `Statistics` value. -/
def statsInvariant (s : Statistics) : Prop :=
  s.wins + s.losses ≤ s.total_predictions ∧
    (0 < s.total_predictions →
      0 ≤ s.win_rate ∧ s.win_rate ≤ 100 ∧ (s.win_rate = 0 ↔ s.wins = 0))

/-- The invariant of claim C9 for a `TimeframeCategoryStats` value. -/
def catStatsInvariant (s : TimeframeCategoryStats) : Prop :=
  s.wins + s.losses ≤ s.total_predictions ∧
    (0 < s.total_predictions →
      0 ≤ s.win_rate ∧ s.win_rate ≤ 100 ∧ (s.win_rate = 0 ↔ s.wins = 0))

lemma statsInvariant_overall (ps : List Prediction) (t : String) :
    statsInvariant (overallStats ps t) :=
  rate_invariant_raw _ _ _ _ (wins_add_losses_le ps) rfl

lemma statsInvariant_timeframe (ps : List Prediction) (t : String) (tf : Int) :
    statsInvariant (timeframeStatsFor ps t tf) :=
  rate_invariant_raw _ _ _ _
    (wins_add_losses_le (ps.filter fun p => decide (p.timeframe_minutes = tf))) rfl

lemma catStatsInvariant_category (ps : List Prediction) (c : TimeframeCategory) :
    catStatsInvariant (categoryStatsFor ps c) :=
  rate_invariant_raw _ _ _ _
    (wins_add_losses_le
      (ps.filter fun p => decide (p.timeframe_minutes ∈ TIMEFRAME_CATEGORIES c))) rfl

/-- C6: when no heartbeat record exists, the resolver returns OFFLINE with
the "No heartbeat data found" message (the spec renders enum values and
messages in its own capitalisation). -/
theorem C6_no_heartbeat_offline (nowMs : Int) (nowISO : String) :
    getSystemStatus none nowMs nowISO =
      { status := .offline
        timestamp := nowISO
        message := some "No heartbeat data found" } := rfl

/-- C2 (code behaviour at the failing input): a heartbeat record whose
timestamp is an unparseable string gives an Invalid Date (NaN time value),
so the elapsed minutes are NaN, both threshold comparisons are false, and
a record whose explicit status is none of offline/error/starting/running
resolves to OFFLINE — not to ONLINE as it would if the current time were
substituted for the last-seen value. -/
theorem C2_unparseable_timestamp_resolves_offline :
    (getSystemStatus
        (some { status := "idle"
                timestamp := "not-a-date"
                timestampParsed := none
                message := none })
        1700000000000 "2023-11-14T22:13:20.000Z").status = .offline := rfl

/-- C1 (counterexample): the overall aggregate embeds the wall-clock
reading `new Date().toISOString()` in its `last_updated` field, so two
runs of the aggregation over the identical (even empty) input collection
at different instants are not byte-identical. -/
theorem C1_counterexample :
    decide (overallStats [] "2024-01-01T00:00:00.000Z" =
      overallStats [] "2024-01-01T00:00:30.000Z") = false := by rfl

/-- C1 (amended): the aggregation is deterministic as a pure function of
its inputs including the clock reading — identical collection and
identical clock string give identical output; across calls at different
instants all fields except `last_updated` coincide for the overall and
per-timeframe aggregates; and the category aggregates, which contain no
timestamp field, depend on the input collection alone. -/
theorem C1_deterministic_modulo_clock (ps : List Prediction) (t1 t2 : String) :
    overallStats ps t1 = overallStats ps t1 ∧
    timeframeStats ps t1 = timeframeStats ps t1 ∧
    calculateCategoryStats ps = calculateCategoryStats ps ∧
    statsCore (overallStats ps t1) = statsCore (overallStats ps t2) ∧
    (timeframeStats ps t1).map statsCore = (timeframeStats ps t2).map statsCore :=
  ⟨rfl, rfl, rfl, rfl, rfl⟩

/-- C5: the record's own explicit status field takes precedence over
elapsed time — "offline"/"error" are propagated unchanged, and
"starting"/"running" are passed through regardless of the elapsed
minutes (the threshold branches are never reached). -/
theorem C5_explicit_status_precedence (d : HeartbeatData) (nowMs : Int) (nowISO : String) :
    (d.status = "offline" → (getSystemStatus (some d) nowMs nowISO).status = .offline) ∧
    (d.status = "error" → (getSystemStatus (some d) nowMs nowISO).status = .error) ∧
    (d.status = "starting" → (getSystemStatus (some d) nowMs nowISO).status = .starting) ∧
    (d.status = "running" → (getSystemStatus (some d) nowMs nowISO).status = .running) := by
  refine ⟨fun h => ?_, fun h => ?_, fun h => ?_, fun h => ?_⟩ <;>
    simp [getSystemStatus, h]

/-- C5 witness: at 999 elapsed minutes (heartbeat at epoch 0, now at
59 940 000 ms) each explicit status field is passed through; in
particular "running" resolves to running, not OFFLINE. -/
theorem C5_explicit_status_precedence_witness :
    (mkHeartbeat "running").status = "running" ∧
    (getSystemStatus (some (mkHeartbeat "offline")) 59940000 "now").status = .offline ∧
    (getSystemStatus (some (mkHeartbeat "error")) 59940000 "now").status = .error ∧
    (getSystemStatus (some (mkHeartbeat "starting")) 59940000 "now").status = .starting ∧
    (getSystemStatus (some (mkHeartbeat "running")) 59940000 "now").status = .running :=
  ⟨rfl,
    (C5_explicit_status_precedence (mkHeartbeat "offline") 59940000 "now").1 rfl,
    (C5_explicit_status_precedence (mkHeartbeat "error") 59940000 "now").2.1 rfl,
    (C5_explicit_status_precedence (mkHeartbeat "starting") 59940000 "now").2.2.1 rfl,
    (C5_explicit_status_precedence (mkHeartbeat "running") 59940000 "now").2.2.2 rfl⟩

/-- A validated WIN record with timeframe 7 minutes: 7 is classified by
the threshold classifier but appears in no membership list. -/
def sampleTf7 : Prediction := mkValidated 7 (some .WIN)

/-- C10: the two timeframe classifications disagree outside the fixed
membership table — 7 and 90 appear in no category membership list (so a
validated record with timeframe 7 counts in the overall aggregate but in
no category aggregate), while the threshold classifier
`getTimeframeCategory` assigns every minutes value to exactly one
category by thresholds (7 ↦ short, 90 ↦ medium). -/
theorem C10_classification_divergence :
    (∀ c, (TIMEFRAME_CATEGORIES c).contains (7 : Int) = false) ∧
    (∀ c, (TIMEFRAME_CATEGORIES c).contains (90 : Int) = false) ∧
    getTimeframeCategory 7 = .short ∧
    getTimeframeCategory 90 = .medium ∧
    (∀ m : Int,
      (m ≤ 5 ∧ getTimeframeCategory m = .ultra_short) ∨
      (5 < m ∧ m ≤ 60 ∧ getTimeframeCategory m = .short) ∨
      (60 < m ∧ m ≤ 720 ∧ getTimeframeCategory m = .medium) ∨
      (720 < m ∧ getTimeframeCategory m = .long)) ∧
    (overallStats [sampleTf7] "t").total_predictions = 1 ∧
    (calculateCategoryStats [sampleTf7]).map (fun s => s.total_predictions) =
      [0, 0, 0, 0] := by
  refine ⟨fun c => ?_, fun c => ?_, rfl, rfl, fun m => ?_, rfl, by decide⟩
  · cases c <;> decide
  · cases c <;> decide
  · rcases le_or_lt m 5 with h1 | h1
    · exact Or.inl ⟨h1, by simp only [getTimeframeCategory, if_pos h1]⟩
    · rcases le_or_lt m 60 with h2 | h2
      · refine Or.inr (Or.inl ⟨h1, h2, ?_⟩)
        simp only [getTimeframeCategory, if_neg (not_le.mpr h1), if_pos h2]
      · rcases le_or_lt m 720 with h3 | h3
        · refine Or.inr (Or.inr (Or.inl ⟨h2, h3, ?_⟩))
          simp only [getTimeframeCategory, if_neg (not_le.mpr h1),
            if_neg (not_le.mpr h2), if_pos h3]
        · refine Or.inr (Or.inr (Or.inr ⟨h3, ?_⟩))
          simp only [getTimeframeCategory, if_neg (not_le.mpr h1),
            if_neg (not_le.mpr h2), if_neg (not_le.mpr h3)]

/-- Each record whose timeframe lies in the active set is counted by
exactly one of the four category membership tests. -/
lemma category_countP_sum (ps : List Prediction)
    (h : ∀ p ∈ ps, p.timeframe_minutes ∈ activeTimeframes) :
    ps.countP (fun p => decide (p.timeframe_minutes ∈ TIMEFRAME_CATEGORIES .ultra_short)) +
      ps.countP (fun p => decide (p.timeframe_minutes ∈ TIMEFRAME_CATEGORIES .short)) +
      ps.countP (fun p => decide (p.timeframe_minutes ∈ TIMEFRAME_CATEGORIES .medium)) +
      ps.countP (fun p => decide (p.timeframe_minutes ∈ TIMEFRAME_CATEGORIES .long)) =
      ps.length := by
  induction ps with
  | nil => rfl
  | cons a l ih =>
    have ihl := ih (fun p hp => h p (List.mem_cons_of_mem a hp))
    have key :
        ((if decide (a.timeframe_minutes ∈ TIMEFRAME_CATEGORIES TimeframeCategory.ultra_short) = true then (1 : Nat) else 0) +
          (if decide (a.timeframe_minutes ∈ TIMEFRAME_CATEGORIES TimeframeCategory.short) = true then (1 : Nat) else 0) +
          (if decide (a.timeframe_minutes ∈ TIMEFRAME_CATEGORIES TimeframeCategory.medium) = true then (1 : Nat) else 0) +
          (if decide (a.timeframe_minutes ∈ TIMEFRAME_CATEGORIES TimeframeCategory.long) = true then (1 : Nat) else 0)) = 1 := by
      have ha := h a (List.mem_cons_self a l)
      simp only [activeTimeframes, List.mem_cons, List.not_mem_nil, or_false] at ha
      rcases ha with h1 | h1 | h1 | h1 | h1 | h1 | h1 | h1 | h1 | h1 <;> rw [h1] <;> decide
    simp only [List.countP_cons, List.length_cons]
    omega

/-- C3: the fixed membership lists are pairwise disjoint, every active
timeframe value belongs to one of them, and over a collection whose
timeframes all lie in the active set, the four category totals sum to the
overall validated total. -/
theorem C3_category_partition :
    (∀ c c' : TimeframeCategory, c = c' ∨
      ((TIMEFRAME_CATEGORIES c).all
        (fun m => !((TIMEFRAME_CATEGORIES c').contains m))) = true) ∧
    (activeTimeframes.all
      (fun m => (TIMEFRAME_CATEGORIES .ultra_short).contains m ||
        (TIMEFRAME_CATEGORIES .short).contains m ||
        (TIMEFRAME_CATEGORIES .medium).contains m ||
        (TIMEFRAME_CATEGORIES .long).contains m)) = true ∧
    (∀ (ps : List Prediction) (nowISO : String),
      (∀ p ∈ ps, p.timeframe_minutes ∈ activeTimeframes) →
      ((calculateCategoryStats ps).map (fun s => s.total_predictions)).sum =
        (overallStats ps nowISO).total_predictions) := by
  refine ⟨?_, by decide, ?_⟩
  · intro c c'
    cases c <;> cases c' <;> first | exact Or.inl rfl | exact Or.inr (by decide)
  · intro ps nowISO h
    show (categoryStatsFor ps .ultra_short).total_predictions +
      ((categoryStatsFor ps .short).total_predictions +
        ((categoryStatsFor ps .medium).total_predictions +
          ((categoryStatsFor ps .long).total_predictions + 0))) = ps.length
    show (ps.filter fun p => decide (p.timeframe_minutes ∈ TIMEFRAME_CATEGORIES .ultra_short)).length +
      ((ps.filter fun p => decide (p.timeframe_minutes ∈ TIMEFRAME_CATEGORIES .short)).length +
        ((ps.filter fun p => decide (p.timeframe_minutes ∈ TIMEFRAME_CATEGORIES .medium)).length +
          ((ps.filter fun p => decide (p.timeframe_minutes ∈ TIMEFRAME_CATEGORIES .long)).length + 0))) = ps.length
    rw [length_filter_as_countP, length_filter_as_countP, length_filter_as_countP,
      length_filter_as_countP]
    have := category_countP_sum ps h
    omega

/-- C3 witness: a two-record collection on active timeframes 5 and 1440;
the category totals sum to the overall total 2. -/
theorem C3_category_partition_witness :
    (∀ p ∈ [mkValidated 5 (some .WIN), mkValidated 1440 (some .LOSE)],
      p.timeframe_minutes ∈ activeTimeframes) ∧
    ((calculateCategoryStats [mkValidated 5 (some .WIN), mkValidated 1440 (some .LOSE)]).map
      (fun s => s.total_predictions)).sum =
      (overallStats [mkValidated 5 (some .WIN), mkValidated 1440 (some .LOSE)]
        "2024-01-01").total_predictions :=
  ⟨by decide,
    C3_category_partition.2.2
      [mkValidated 5 (some .WIN), mkValidated 1440 (some .LOSE)] "2024-01-01" (by decide)⟩

/-- C7: the pending-validation filter keeps exactly the records of the
input whose parsed `target_time` exists and is at most the current time;
a record with unparseable `target_time` is never kept. -/
theorem C7_pending_filter_membership (preds : List Prediction) (nowMs : Int)
    (p : Prediction) :
    p ∈ pendingFilter preds nowMs ↔
      p ∈ preds ∧ ∃ t, p.target_time_parsed = some t ∧ t ≤ nowMs := by
  unfold pendingFilter
  rw [List.mem_filter]
  constructor
  · rintro ⟨hp, hb⟩
    refine ⟨hp, ?_⟩
    cases h : p.target_time_parsed with
    | none => rw [h] at hb; simp at hb
    | some t =>
      rw [h] at hb
      exact ⟨t, rfl, by simpa using hb⟩
  · rintro ⟨hp, t, ht, hle⟩
    refine ⟨hp, ?_⟩
    rw [ht]
    simpa using hle

/-- An unvalidated record with the given identifier and parsed target
time, used as concrete input in the pending-filter witness. -/
def mkPending (ident : String) (target : Option Int) : Prediction :=
  { id := ident
    timeframe_minutes := 5
    validated := false
    validation_result := none
    price_error := none
    price_error_pct := none
    prediction_time_parsed := some 0
    target_time_parsed := target }

/-- Record due one minute in the past (relative to now = 0 ms). -/
def pendingPast : Prediction := mkPending "past" (some (-60000))

/-- Record due one minute in the future (relative to now = 0 ms). -/
def pendingFuture : Prediction := mkPending "future" (some 60000)

/-- Record with unparseable target time. -/
def pendingBad : Prediction := mkPending "bad" none

/-- C7 witness: with current time 0, the record due one minute in the past
is kept, the one due one minute in the future is not, and the one whose
target time is unparseable is not. -/
theorem C7_pending_filter_membership_witness :
    pendingPast ∈ pendingFilter [pendingPast, pendingFuture, pendingBad] 0 ∧
    pendingFuture ∉ pendingFilter [pendingPast, pendingFuture, pendingBad] 0 ∧
    pendingBad ∉ pendingFilter [pendingPast, pendingFuture, pendingBad] 0 := by
  refine ⟨?_, ?_, ?_⟩
  · exact (C7_pending_filter_membership [pendingPast, pendingFuture, pendingBad] 0
      pendingPast).mpr ⟨by decide, -60000, rfl, by decide⟩
  · intro hmem
    obtain ⟨-, t, ht, hle⟩ :=
      (C7_pending_filter_membership [pendingPast, pendingFuture, pendingBad] 0
        pendingFuture).mp hmem
    have : t = 60000 := by simpa [pendingFuture, mkPending] using ht.symm
    omega
  · intro hmem
    obtain ⟨-, t, ht, -⟩ :=
      (C7_pending_filter_membership [pendingPast, pendingFuture, pendingBad] 0
        pendingBad).mp hmem
    simp [pendingBad, mkPending] at ht

/-- C8: a group that is empty after filtering produces an aggregate with
all counts and all rates equal to zero — the `total > 0` guard takes the
else branch, so no division by zero is reached (overall, per-timeframe
and per-category alike). -/
theorem C8_empty_group_zeros (ps : List Prediction) (nowISO : String)
    (c : TimeframeCategory) (tf : Int)
    (hc : ps.filter (fun p => decide (p.timeframe_minutes ∈ TIMEFRAME_CATEGORIES c)) = [])
    (htf : ps.filter (fun p => decide (p.timeframe_minutes = tf)) = []) :
    categoryStatsFor ps c =
      { category := c, timeframes := TIMEFRAME_CATEGORIES c, total_predictions := 0,
        wins := 0, losses := 0, win_rate := 0, avg_error := 0, avg_error_pct := 0 } ∧
    timeframeStatsFor ps nowISO tf =
      { timeframe_minutes := some tf, period_days := 7, total_predictions := 0,
        wins := 0, losses := 0, win_rate := 0, avg_error := 0, avg_error_pct := 0,
        last_updated := nowISO } ∧
    overallStats [] nowISO =
      { timeframe_minutes := none, period_days := 7, total_predictions := 0,
        wins := 0, losses := 0, win_rate := 0, avg_error := 0, avg_error_pct := 0,
        last_updated := nowISO } := by
  refine ⟨?_, ?_, rfl⟩
  · simp only [categoryStatsFor, hc]
    rfl
  · simp only [timeframeStatsFor, htf]
    rfl

/-- C8 witness: the empty collection leaves every group empty, and the
ultra_short category and timeframe-5 aggregates are all-zero. -/
theorem C8_empty_group_zeros_witness :
    ([] : List Prediction).filter
      (fun p => decide (p.timeframe_minutes ∈ TIMEFRAME_CATEGORIES .ultra_short)) = [] ∧
    ([] : List Prediction).filter (fun p => decide (p.timeframe_minutes = (5 : Int))) = [] ∧
    categoryStatsFor [] .ultra_short =
      { category := .ultra_short, timeframes := TIMEFRAME_CATEGORIES .ultra_short,
        total_predictions := 0, wins := 0, losses := 0, win_rate := 0,
        avg_error := 0, avg_error_pct := 0 } ∧
    timeframeStatsFor [] "2024-01-01" 5 =
      { timeframe_minutes := some 5, period_days := 7, total_predictions := 0,
        wins := 0, losses := 0, win_rate := 0, avg_error := 0, avg_error_pct := 0,
        last_updated := "2024-01-01" } :=
  ⟨rfl, rfl,
    (C8_empty_group_zeros [] "2024-01-01" .ultra_short 5 rfl rfl).1,
    (C8_empty_group_zeros [] "2024-01-01" .ultra_short 5 rfl rfl).2.1⟩

/-- C9: every aggregate produced — overall, per-timeframe and
per-category — satisfies `wins + losses ≤ total`, and for every non-empty
group the win rate lies in [0, 100] and vanishes exactly when the win
count does. -/
theorem C9_aggregate_invariants (ps : List Prediction) (nowISO : String) :
    statsInvariant (overallStats ps nowISO) ∧
    (∀ s ∈ timeframeStats ps nowISO, statsInvariant s) ∧
    (∀ s ∈ calculateCategoryStats ps, catStatsInvariant s) := by
  refine ⟨statsInvariant_overall ps nowISO, ?_, ?_⟩
  · intro s hs
    simp only [timeframeStats, List.mem_map] at hs
    obtain ⟨tf, -, rfl⟩ := hs
    exact statsInvariant_timeframe ps nowISO tf
  · intro s hs
    simp only [calculateCategoryStats, List.mem_map] at hs
    obtain ⟨c, -, rfl⟩ := hs
    exact catStatsInvariant_category ps c

/-- C9 witness: on a singleton WIN collection the overall aggregate is
non-empty, its win rate is 100 ∈ [0, 100], and it is nonzero because the
win count is nonzero. -/
theorem C9_aggregate_invariants_witness :
    0 < (overallStats [mkValidated 15 (some .WIN)] "t").total_predictions ∧
    (0 ≤ (overallStats [mkValidated 15 (some .WIN)] "t").win_rate ∧
      (overallStats [mkValidated 15 (some .WIN)] "t").win_rate ≤ 100 ∧
      ((overallStats [mkValidated 15 (some .WIN)] "t").win_rate = 0 ↔
        (overallStats [mkValidated 15 (some .WIN)] "t").wins = 0)) :=
  ⟨by decide,
    (C9_aggregate_invariants [mkValidated 15 (some .WIN)] "t").1.2 (by decide)⟩

/-- C4: for a heartbeat whose explicit status field is none of
offline/error/starting/running, the server resolver and the client-side
re-derivation agree outside the [2, 10) band but disagree inside it:
2 ≤ elapsed < 10 yields ONLINE server-side and DELAYED (warning)
client-side; elapsed ≥ 10 yields OFFLINE on both; elapsed < 2 yields
ONLINE on both. -/
theorem C4_delayed_band_divergence (d : HeartbeatData) (nowMs lastMs : Int)
    (nowISO : String) (e : ℚ)
    (h1 : d.status ≠ "offline") (h2 : d.status ≠ "error")
    (h3 : d.status ≠ "starting") (h4 : d.status ≠ "running")
    (hts : d.timestamp ≠ "") (hp : d.timestampParsed = some lastMs)
    (he : e = ((nowMs - lastMs : Int) : ℚ) / 1000 / 60) :
    (2 ≤ e → e < 10 →
      (getSystemStatus (some d) nowMs nowISO).status = .online ∧
      clientDeriveStatus (getSystemStatus (some d) nowMs nowISO).status d.timestamp
        d.timestampParsed nowMs = .warning) ∧
    (10 ≤ e →
      (getSystemStatus (some d) nowMs nowISO).status = .offline ∧
      clientDeriveStatus (getSystemStatus (some d) nowMs nowISO).status d.timestamp
        d.timestampParsed nowMs = .offline) ∧
    (e < 2 →
      (getSystemStatus (some d) nowMs nowISO).status = .online ∧
      clientDeriveStatus (getSystemStatus (some d) nowMs nowISO).status d.timestamp
        d.timestampParsed nowMs = .online) := by
  subst he
  have hx : ((nowMs - lastMs : Int) : ℚ) / 60000 =
      ((nowMs - lastMs : Int) : ℚ) / 1000 / 60 := by
    rw [div_div]
    norm_num
  have hser : (getSystemStatus (some d) nowMs nowISO).status =
      (if ((nowMs - lastMs : Int) : ℚ) / 1000 / 60 < 2 then StatusVal.online
       else if ((nowMs - lastMs : Int) : ℚ) / 1000 / 60 < 10 then StatusVal.online
       else StatusVal.offline) := by
    simp [getSystemStatus, hp, h1, h2, h3, h4, jsLtQ]
  have hcl : ∀ sv : StatusVal, sv ≠ .offline → sv ≠ .error →
      clientDeriveStatus sv d.timestamp d.timestampParsed nowMs =
        (if (⌊((nowMs - lastMs : Int) : ℚ) / 60000⌋ : Int) < 2 then ClientStatus.online
         else if (⌊((nowMs - lastMs : Int) : ℚ) / 60000⌋ : Int) < 10 then ClientStatus.warning
         else ClientStatus.offline) := by
    intro sv hv1 hv2
    simp [clientDeriveStatus, hts, hp, jsLtI, hv1, hv2]
  have hcl_off : clientDeriveStatus .offline d.timestamp d.timestampParsed nowMs =
      .offline := by
    simp [clientDeriveStatus, hts]
  refine ⟨fun ha hb => ?_, fun ha => ?_, fun ha => ?_⟩
  · have hfl2 : (2 : Int) ≤ ⌊((nowMs - lastMs : Int) : ℚ) / 60000⌋ :=
      Int.le_floor.mpr (by rw [hx]; exact_mod_cast ha)
    have hfl10 : ⌊((nowMs - lastMs : Int) : ℚ) / 60000⌋ < (10 : Int) :=
      Int.floor_lt.mpr (by rw [hx]; exact_mod_cast hb)
    have hso : (getSystemStatus (some d) nowMs nowISO).status = .online := by
      rw [hser, if_neg (not_lt.mpr ha), if_pos hb]
    refine ⟨hso, ?_⟩
    rw [hso, hcl .online (by decide) (by decide),
      if_neg (not_lt.mpr hfl2), if_pos hfl10]
  · have hso : (getSystemStatus (some d) nowMs nowISO).status = .offline := by
      rw [hser, if_neg (not_lt.mpr (le_trans (by norm_num) ha)),
        if_neg (not_lt.mpr ha)]
    refine ⟨hso, ?_⟩
    rw [hso]
    exact hcl_off
  · have hfl2 : ⌊((nowMs - lastMs : Int) : ℚ) / 60000⌋ < (2 : Int) :=
      Int.floor_lt.mpr (by rw [hx]; exact_mod_cast ha)
    have hso : (getSystemStatus (some d) nowMs nowISO).status = .online := by
      rw [hser, if_pos ha]
    refine ⟨hso, ?_⟩
    rw [hso, hcl .online (by decide) (by decide), if_pos hfl2]

/-- C4 witness: heartbeat at epoch 0 with unrecognised explicit status,
observed 5 minutes later (now = 300 000 ms): elapsed 5 ∈ [2, 10), the
server resolves ONLINE while the client derives DELAYED (warning). -/
theorem C4_delayed_band_divergence_witness :
    ((2 : ℚ) ≤ 5 ∧ (5 : ℚ) < 10) ∧
    (getSystemStatus (some (mkHeartbeat "unknown")) 300000 "now").status = .online ∧
    clientDeriveStatus (getSystemStatus (some (mkHeartbeat "unknown")) 300000 "now").status
      (mkHeartbeat "unknown").timestamp (mkHeartbeat "unknown").timestampParsed 300000 =
      .warning := by
  have h :=
    (C4_delayed_band_divergence (mkHeartbeat "unknown") 300000 0 "now" 5
      (by decide) (by decide) (by decide) (by decide) (by decide) rfl
      (by norm_num)).1 (by norm_num) (by norm_num)
  exact ⟨⟨by norm_num, by norm_num⟩, h.1, h.2⟩

end BTCPredictor
